import Mathlib

/-!
Verification of the CareerCraft ATS tracker (src/app.py) against its
specification. The Python source is shallowly embedded: the PDF extractor,
the truncation guard, the Gemini invocation wrapper, the submit-button
handler and the startup credential check become total Lean functions, with
user-visible side effects (warnings, errors, external calls, page rendering)
recorded as explicit event lists, and Python exceptions modelled as explicit
failure constructors of the input types.
-/

namespace CareerCraft

/-- One page of the uploaded PDF. The field models the result of the PyPDF2
call page.extract_text(), which returns either a string (possibly empty) or
None (modelled as none) for a page with no extractable text. -/
structure Page where
  extract_text : Option String
deriving DecidableEq, Repr

/-- Outcome of handing the uploaded payload to PyPDF2.PdfReader and walking
its pages: either a parsed list of pages, or an exception (corrupt payload,
encrypted document, and so on), carrying the exception message. -/
inductive PdfParse where
  | ok (pages : List Page)
  | fail (reason : String)
deriving DecidableEq, Repr

/-- User-visible effects performed by the app, in program order: Streamlit
page configuration, credential configuration, model selection, rendering of
the main UI, st.stop, st.warning, st.error, composing the prompt string,
invoking the external Gemini service, and st.write of the response. -/
inductive Event where
  | pageConfig
  | configured (apiKey : String)
  | modelSelected (name : String)
  | uiRendered
  | stopped
  | warning (msg : String)
  | errorShown (msg : String)
  | composed (prompt : String)
  | externalCall (prompt : String)
  | wrote (text : String)
deriving DecidableEq, Repr

/-- Return value of the extractor together with the effects it performed. -/
structure ExtractResult where
  text : String
  events : List Event
deriving DecidableEq, Repr

/-- The st.error message shown by input_pdf_text when parsing raises. -/
def pdfReadError : String :=
  "❌ Failed to read the PDF. Ensure it is a valid, text-based PDF."

/-- Embedding of input_pdf_text (app.py lines 135-153). On a successful
parse it joins, in page order, page.extract_text() or "" over all pages; on
any parse exception it shows an st.error and returns the empty string. The
Lean function is total: no exception escapes this boundary. -/
def input_pdf_text : PdfParse → ExtractResult
  | PdfParse.ok pages =>
      { text := String.join (pages.map (fun p => p.extract_text.getD "")),
        events := [] }
  | PdfParse.fail _reason =>
      { text := "", events := [Event.errorShown pdfReadError] }

/-- The fixed truncation marker appended by truncate (app.py line 158). -/
def truncMarker : String := "\n\n[...truncated due to length...]"

/-- Python slice s[:n]: the first n characters of s. -/
def pySlice (s : String) (n : Nat) : String := (s.toList.take n).asString

/-- Embedding of truncate (app.py lines 155-159): if the string is truthy
and longer than max_chars, keep the first max_chars characters and append
the fixed marker; otherwise return the string unchanged. -/
def truncate (text : String) (max_chars : Nat := 15000) : String :=
  if text ≠ "" ∧ text.length > max_chars then
    pySlice text max_chars ++ truncMarker
  else text

/-- Outcome of one call of model.generate_content(prompt): success carries
the optional resp.text attribute (none models a missing or None attribute),
failure carries the exception message (authentication, quota, availability). -/
inductive GeminiOutcome where
  | success (text : Option String)
  | failure (reason : String)
deriving DecidableEq, Repr

/-- The st.error banner shown by get_gemini_response on failure. -/
def geminiFailBanner : String :=
  "⚠️ Gemini request failed (often model name / quota / prompt size)."

/-- The sentinel string returned by get_gemini_response on failure. -/
def geminiFailSentinel : String := "Gemini request failed. See error above."

/-- The fallback string returned when resp.text is missing, None or empty. -/
def noTextSentinel : String := "No text returned."

/-- Return value of get_gemini_response, with its effects and the number of
external attempts it performed. -/
structure GeminiResponse where
  text : String
  events : List Event
  attempts : Nat
deriving DecidableEq, Repr

/-- Embedding of get_gemini_response (app.py lines 161-168). The external
service is a parameter svc mapping the prompt to the outcome of the single
generate_content call. getattr(resp, "text", "") or "No text returned."
yields the text when present and nonempty, the sentinel otherwise; an
exception is caught, an st.error banner shown, and a sentinel returned.
Exactly one external attempt is made: no retry. -/
def get_gemini_response (svc : String → GeminiOutcome) (prompt : String) :
    GeminiResponse :=
  match svc prompt with
  | GeminiOutcome.success t =>
      { text := match t with
          | some s => if s = "" then noTextSentinel else s
          | none => noTextSentinel,
        events := [], attempts := 1 }
  | GeminiOutcome.failure _reason =>
      { text := geminiFailSentinel,
        events := [Event.errorShown geminiFailBanner],
        attempts := 1 }

/-- The fixed instruction header of the prompt (app.py lines 238-245). -/
def promptHeader : String :=
  "You are an ATS expert. Compare the job description and resume.\n" ++
  "Return a structured, concise analysis with:\n" ++
  "1) Overall match percentage (as a number 0–100)\n" ++
  "2) Missing or weak keywords/skills (bulleted)\n" ++
  "3) A punchy 3–5 sentence profile summary tailored to the JD\n" ++
  "4) Actionable suggestions to improve alignment (bulleted)\n" ++
  "Keep the tone objective and specific.\n\n"

/-- The composed prompt (app.py lines 238-248): the fixed header followed by
the two interpolated sections. -/
def buildPrompt (jd_text cv_text : String) : String :=
  promptHeader ++
  "--- JOB DESCRIPTION ---\n" ++ jd_text ++ "\n\n" ++
  "--- RESUME ---\n" ++ cv_text ++ "\n"

/-- Characters removed by str.strip() with no arguments (ASCII whitespace;
the embedding restricts uploaded text to ASCII whitespace classes). -/
def isPySpace (c : Char) : Bool :=
  c = ' ' || c = '\t' || c = '\n' || c = '\r' || c = '\x0b' || c = '\x0c'

/-- Python truth of not s.strip(): true iff every character is whitespace
(in particular for the empty string). -/
def stripIsEmpty (s : String) : Bool := s.toList.all isPySpace

/-- Embedding of the submit-button handler (app.py lines 223-251) as the
list of events it performs: empty job description warns and stops; missing
upload warns and stops; whitespace-only extraction warns and stops; else
the prompt is composed from truncate(job_desc, 7000) and
truncate(resume_text, 9000), the external service is invoked once, and the
response text is written. -/
def submitTrace (job_desc : String) (uploaded_resume : Option PdfParse)
    (svc : String → GeminiOutcome) : List Event :=
  if job_desc = "" then
    [Event.warning "Please paste a job description."]
  else
    match uploaded_resume with
    | none => [Event.warning "Please upload your resume PDF."]
    | some pdf =>
        let er := input_pdf_text pdf
        er.events ++
          (if stripIsEmpty er.text then
            [Event.warning
              "Could not extract text from the PDF. Try a text-based resume PDF."]
          else
            let jd_text := truncate job_desc 7000
            let cv_text := truncate er.text 9000
            let prompt := buildPrompt jd_text cv_text
            let resp := get_gemini_response svc prompt
            [Event.composed prompt, Event.externalCall prompt]
              ++ resp.events ++ [Event.wrote resp.text])

/-- Python `a or b` over optional strings: the first operand when truthy
(present and nonempty), otherwise the second. -/
def pyOr (a b : Option String) : Option String :=
  match a with
  | some s => if s = "" then b else some s
  | none => b

/-- Embedding of _get_api_key (app.py lines 27-34): Streamlit secrets first
(GEMINI then GOOGLE key), then the environment, in that fixed order, with
Python or-chaining. -/
def _get_api_key (secrets env : String → Option String) : Option String :=
  pyOr (secrets "GEMINI_API_KEY")
    (pyOr (secrets "GOOGLE_API_KEY")
      (pyOr (env "GEMINI_API_KEY") (env "GOOGLE_API_KEY")))

/-- Python falsiness of an optional string: absent or empty. -/
def pyFalsy : Option String → Bool
  | none => true
  | some s => s = ""

/-- The st.error message shown at startup when no API key is found. -/
def noKeyError : String :=
  "❌ No API key found. Set `GEMINI_API_KEY` (or `GOOGLE_API_KEY`) in Streamlit Secrets or .env"

/-- The st.error message shown when no Gemini model can be initialized. -/
def modelInitError : String :=
  "❌ Could not initialize a Gemini model. (Model name / key / quota / region issue.)"

/-- Embedding of the module-level startup sequence (app.py lines 20-116 and
the UI below): page config, then the credential check — a falsy key shows
st.error and st.stop()s before anything else — then genai.configure, model
selection (modelPick is some name when pick_available_model and the ping
succeed, none when they raise), and only then the UI. -/
def startupTrace (secrets env : String → Option String)
    (modelPick : Option String) : List Event :=
  Event.pageConfig ::
    (let key := _get_api_key secrets env
     if pyFalsy key then
       [Event.errorShown noKeyError, Event.stopped]
     else
       Event.configured (key.getD "") ::
         (match modelPick with
          | some name => [Event.modelSelected name, Event.uiRendered]
          | none => [Event.errorShown modelInitError, Event.stopped]))

theorem pySlice_length (s : String) (n : Nat) :
    (pySlice s n).length = min n s.length := by
  have h1 : (pySlice s n).length = (s.toList.take n).length := rfl
  rw [h1, List.length_take]
  rfl

theorem truncate_length_le (s : String) (n : Nat) :
    (truncate s n).length ≤ n + truncMarker.length := by
  unfold truncate
  by_cases h : s ≠ "" ∧ s.length > n
  · rw [if_pos h, String.length_append, pySlice_length]
    omega
  · rw [if_neg h]
    rcases Decidable.not_and_iff_or_not.mp h with h1 | h2
    · simp only [ne_eq, not_not] at h1
      subst h1
      have h0 : ("" : String).length = 0 := rfl
      omega
    · omega

/-- Claim C3: for every string strictly shorter than its budget, truncate
returns the string unchanged. -/
theorem truncate_under_budget (text : String) (max_chars : Nat)
    (h : text.length < max_chars) : truncate text max_chars = text := by
  unfold truncate
  rw [if_neg]
  intro hc
  omega

theorem truncate_under_budget_witness :
    ("ab".length < 3) ∧ truncate "ab" 3 = "ab" :=
  ⟨by decide, truncate_under_budget "ab" 3 (by decide)⟩

/-- Claim C2: for every string whose length exceeds its budget, truncate
returns exactly the first budget characters of the original followed by the
fixed truncation marker, and the result length is budget plus the marker
length. -/
theorem truncate_over_budget (text : String) (max_chars : Nat)
    (h : text.length > max_chars) :
    (truncate text max_chars).toList
        = text.toList.take max_chars ++ truncMarker.toList
      ∧ (truncate text max_chars).length = max_chars + truncMarker.length := by
  have hne : text ≠ "" := by
    intro he
    rw [he] at h
    have h0 : ("" : String).length = 0 := rfl
    omega
  unfold truncate
  rw [if_pos ⟨hne, h⟩]
  constructor
  · show (pySlice text max_chars ++ truncMarker).data
        = text.data.take max_chars ++ truncMarker.data
    rw [String.data_append]
    simp [pySlice, List.asString]
  · rw [String.length_append, pySlice_length]
    have : text.length = text.data.length := rfl
    omega

theorem truncate_over_budget_witness :
    ("abcde".length > 3) ∧
      ((truncate "abcde" 3).toList
          = "abcde".toList.take 3 ++ truncMarker.toList
        ∧ (truncate "abcde" 3).length = 3 + truncMarker.length) :=
  ⟨by decide, truncate_over_budget "abcde" 3 (by decide)⟩

theorem join_cons (a : String) (l : List String) :
    String.join (a :: l) = a ++ String.join l := by
  apply String.ext
  rw [String.data_append,
    show (String.join (a :: l)).data
        = (List.map String.data (a :: l)).flatten from
      congrArg String.data (String.join_eq _),
    show (String.join l).data = (List.map String.data l).flatten from
      congrArg String.data (String.join_eq _)]
  simp

/-- Claim C1: for every successfully parsed page-structured document, the
extractor returns the single string equal to the concatenation, in page
order, of each page's extractable text, with a page carrying no extractable
text contributing the empty string, and no warning is shown; totality of
the embedding reflects that no exception occurs on this path. -/
theorem input_pdf_text_concat (pages : List Page) :
    (input_pdf_text (PdfParse.ok pages)).text
        = pages.foldr
            (fun p acc =>
              (match p.extract_text with
               | some s => s
               | none => "") ++ acc) ""
      ∧ (input_pdf_text (PdfParse.ok pages)).events = [] := by
  constructor
  · show String.join (pages.map (fun p => p.extract_text.getD "")) = _
    induction pages with
    | nil => rfl
    | cons p ps ih =>
        rw [List.map_cons, join_cons, List.foldr_cons, ih]
        cases p.extract_text <;> rfl
  · rfl

/-- Claim C6: for every input on which parsing raises, input_pdf_text
catches the failure, shows the user-facing error message, and returns the
empty string; the embedding is a total function, so nothing propagates past
this boundary. -/
theorem input_pdf_text_parse_failure (reason : String) :
    input_pdf_text (PdfParse.fail reason)
      = { text := "", events := [Event.errorShown pdfReadError] } := rfl

/-- Claim C7: for every external-service failure, get_gemini_response shows
the diagnostic banner, returns the sentinel failure string instead of
throwing, and performs exactly one attempt: no retry. -/
theorem gemini_failure_handled (svc : String → GeminiOutcome)
    (prompt reason : String) (h : svc prompt = GeminiOutcome.failure reason) :
    get_gemini_response svc prompt
      = { text := geminiFailSentinel,
          events := [Event.errorShown geminiFailBanner],
          attempts := 1 } := by
  unfold get_gemini_response
  rw [h]

theorem gemini_failure_handled_witness :
    ((fun _ : String => GeminiOutcome.failure "quota") "p"
        = GeminiOutcome.failure "quota")
      ∧ get_gemini_response (fun _ => GeminiOutcome.failure "quota") "p"
          = { text := geminiFailSentinel,
              events := [Event.errorShown geminiFailBanner],
              attempts := 1 } :=
  ⟨rfl, gemini_failure_handled (fun _ => GeminiOutcome.failure "quota") "p"
    "quota" rfl⟩

/-- Claim C8, counterexample: a successful external call whose text output
is the empty string is not returned verbatim; the code substitutes the
fixed fallback string "No text returned.", which differs from the empty
output. -/
theorem gemini_verbatim_counterexample :
    (fun _ : String => GeminiOutcome.success (some "")) "p"
        = GeminiOutcome.success (some "")
      ∧ (get_gemini_response (fun _ => GeminiOutcome.success (some "")) "p").text
          = noTextSentinel
      ∧ noTextSentinel ≠ "" :=
  ⟨rfl, rfl, by decide⟩

/-- Claim C8, amended: for every successful external call whose text output
is present and nonempty, get_gemini_response returns that text verbatim and
unchanged, with no error surfaced and a single attempt. -/
theorem gemini_success_verbatim (svc : String → GeminiOutcome)
    (prompt s : String) (h : svc prompt = GeminiOutcome.success (some s))
    (hne : s ≠ "") :
    (get_gemini_response svc prompt).text = s
      ∧ (get_gemini_response svc prompt).events = []
      ∧ (get_gemini_response svc prompt).attempts = 1 := by
  unfold get_gemini_response
  rw [h]
  simp [hne]

theorem gemini_success_verbatim_witness :
    ((fun _ : String => GeminiOutcome.success (some "All good")) "p"
        = GeminiOutcome.success (some "All good")
      ∧ ("All good" : String) ≠ "")
      ∧ ((get_gemini_response
            (fun _ => GeminiOutcome.success (some "All good")) "p").text
            = "All good"
        ∧ (get_gemini_response
            (fun _ => GeminiOutcome.success (some "All good")) "p").events = []
        ∧ (get_gemini_response
            (fun _ => GeminiOutcome.success (some "All good")) "p").attempts
            = 1) :=
  ⟨⟨rfl, by decide⟩,
    gemini_success_verbatim (fun _ => GeminiOutcome.success (some "All good"))
      "p" "All good" rfl (by decide)⟩

/-- Claim C4: for every submission with an empty job-description field or
with no uploaded document, the external service is never invoked and a
warning is shown instead. -/
theorem submit_requires_inputs (job_desc : String)
    (uploaded_resume : Option PdfParse) (svc : String → GeminiOutcome)
    (h : job_desc = "" ∨ uploaded_resume = none) :
    (∀ p, Event.externalCall p ∉ submitTrace job_desc uploaded_resume svc)
      ∧ ∃ m, Event.warning m ∈ submitTrace job_desc uploaded_resume svc := by
  unfold submitTrace
  by_cases hjd : job_desc = ""
  · rw [if_pos hjd]
    exact ⟨fun p hp => by simp at hp,
      ⟨"Please paste a job description.", by simp⟩⟩
  · rcases h with h | h
    · exact absurd h hjd
    · rw [if_neg hjd, h]
      exact ⟨fun p hp => by simp at hp,
        ⟨"Please upload your resume PDF.", by simp⟩⟩

theorem submit_requires_inputs_witness :
    (("" : String) = "" ∨ (none : Option PdfParse) = none)
      ∧ ((∀ p, Event.externalCall p
            ∉ submitTrace "" none (fun _ => GeminiOutcome.failure "e"))
        ∧ ∃ m, Event.warning m
            ∈ submitTrace "" none (fun _ => GeminiOutcome.failure "e")) :=
  ⟨Or.inl rfl,
    submit_requires_inputs "" none (fun _ => GeminiOutcome.failure "e")
      (Or.inl rfl)⟩

theorem submitTrace_whitespace (job_desc : String) (pdf : PdfParse)
    (svc : String → GeminiOutcome) (hjd : job_desc ≠ "")
    (hws : stripIsEmpty (input_pdf_text pdf).text = true) :
    submitTrace job_desc (some pdf) svc
      = (input_pdf_text pdf).events
          ++ [Event.warning
              "Could not extract text from the PDF. Try a text-based resume PDF."] := by
  unfold submitTrace
  rw [if_neg hjd]
  simp only [hws, if_true]

/-- Claim C5: for every submission that reaches extraction and whose
document extracts to an empty or whitespace-only string, no prompt is
composed, the external service is never invoked, and the user is warned to
supply a text-based document instead. -/
theorem whitespace_resume_blocks (job_desc : String) (pdf : PdfParse)
    (svc : String → GeminiOutcome) (hjd : job_desc ≠ "")
    (hws : stripIsEmpty (input_pdf_text pdf).text = true) :
    (∀ p, Event.composed p ∉ submitTrace job_desc (some pdf) svc)
      ∧ (∀ p, Event.externalCall p ∉ submitTrace job_desc (some pdf) svc)
      ∧ Event.warning
            "Could not extract text from the PDF. Try a text-based resume PDF."
          ∈ submitTrace job_desc (some pdf) svc := by
  rw [submitTrace_whitespace job_desc pdf svc hjd hws]
  refine ⟨?_, ?_, ?_⟩
  · intro p hp
    cases pdf <;> simp [input_pdf_text] at hp
  · intro p hp
    cases pdf <;> simp [input_pdf_text] at hp
  · cases pdf <;> simp [input_pdf_text]

theorem whitespace_resume_blocks_witness :
    (("x" : String) ≠ ""
      ∧ stripIsEmpty (input_pdf_text (PdfParse.ok [])).text = true)
      ∧ ((∀ p, Event.composed p
            ∉ submitTrace "x" (some (PdfParse.ok []))
                (fun _ => GeminiOutcome.failure "e"))
        ∧ (∀ p, Event.externalCall p
            ∉ submitTrace "x" (some (PdfParse.ok []))
                (fun _ => GeminiOutcome.failure "e"))
        ∧ Event.warning
              "Could not extract text from the PDF. Try a text-based resume PDF."
            ∈ submitTrace "x" (some (PdfParse.ok []))
                (fun _ => GeminiOutcome.failure "e")) :=
  ⟨⟨by decide, by decide⟩,
    whitespace_resume_blocks "x" (PdfParse.ok [])
      (fun _ => GeminiOutcome.failure "e") (by decide) (by decide)⟩

/-- Claim C9: when the API credential is absent from all four named sources
in the fixed precedence order, startup shows the missing-key error and
stops immediately after page configuration: the main UI is never rendered
and the credential is never configured, so no request is ever served. -/
theorem startup_halts_without_key (secrets env : String → Option String)
    (modelPick : Option String)
    (h1 : secrets "GEMINI_API_KEY" = none)
    (h2 : secrets "GOOGLE_API_KEY" = none)
    (h3 : env "GEMINI_API_KEY" = none)
    (h4 : env "GOOGLE_API_KEY" = none) :
    startupTrace secrets env modelPick
        = [Event.pageConfig, Event.errorShown noKeyError, Event.stopped]
      ∧ Event.uiRendered ∉ startupTrace secrets env modelPick
      ∧ ∀ k, Event.configured k ∉ startupTrace secrets env modelPick := by
  have ht : startupTrace secrets env modelPick
      = [Event.pageConfig, Event.errorShown noKeyError, Event.stopped] := by
    unfold startupTrace _get_api_key
    rw [h1, h2, h3, h4]
    rfl
  refine ⟨ht, ?_, ?_⟩
  · rw [ht]
    simp
  · intro k
    rw [ht]
    simp

theorem startup_halts_without_key_witness :
    (((fun _ : String => (none : Option String)) "GEMINI_API_KEY" = none
      ∧ (fun _ : String => (none : Option String)) "GOOGLE_API_KEY" = none)
      ∧ (fun _ : String => (none : Option String)) "GEMINI_API_KEY" = none
      ∧ (fun _ : String => (none : Option String)) "GOOGLE_API_KEY" = none)
      ∧ (startupTrace (fun _ => none) (fun _ => none) none
            = [Event.pageConfig, Event.errorShown noKeyError, Event.stopped]
        ∧ Event.uiRendered ∉ startupTrace (fun _ => none) (fun _ => none) none
        ∧ ∀ k, Event.configured k
            ∉ startupTrace (fun _ => none) (fun _ => none) none) :=
  ⟨⟨⟨rfl, rfl⟩, rfl, rfl⟩,
    startup_halts_without_key (fun _ => none) (fun _ => none) none
      rfl rfl rfl rfl⟩

theorem submitTrace_analyzed (job_desc : String) (pdf : PdfParse)
    (svc : String → GeminiOutcome) (hjd : job_desc ≠ "")
    (hws : stripIsEmpty (input_pdf_text pdf).text = false) :
    submitTrace job_desc (some pdf) svc
      = (input_pdf_text pdf).events
          ++ ([Event.composed
                (buildPrompt (truncate job_desc 7000)
                  (truncate (input_pdf_text pdf).text 9000)),
               Event.externalCall
                (buildPrompt (truncate job_desc 7000)
                  (truncate (input_pdf_text pdf).text 9000))]
              ++ (get_gemini_response svc
                    (buildPrompt (truncate job_desc 7000)
                      (truncate (input_pdf_text pdf).text 9000))).events
              ++ [Event.wrote
                  (get_gemini_response svc
                    (buildPrompt (truncate job_desc 7000)
                      (truncate (input_pdf_text pdf).text 9000))).text]) := by
  unfold submitTrace
  rw [if_neg hjd]
  simp only [hws, Bool.false_eq_true, if_false]

theorem buildPrompt_length (jd_text cv_text : String) :
    (buildPrompt jd_text cv_text).length
      = (buildPrompt "" "").length + jd_text.length + cv_text.length := by
  simp only [buildPrompt, String.length_append, String.length_empty]
  omega

theorem gemini_events_no_call (svc : String → GeminiOutcome)
    (prompt p : String) :
    Event.externalCall p ∉ (get_gemini_response svc prompt).events := by
  unfold get_gemini_response
  cases svc prompt <;> simp

/-- Claim C10: every prompt that reaches the external call was composed
with the handler's field budgets — 7000 characters for the job description
and 9000 for the résumé, not the 15000-character default of truncate — so
its length is bounded by the fixed template overhead plus each budget plus
one truncation marker per field. -/
theorem prompt_size_bounded (job_desc : String) (pdf : PdfParse)
    (svc : String → GeminiOutcome) (p : String)
    (h : Event.externalCall p ∈ submitTrace job_desc (some pdf) svc) :
    p = buildPrompt (truncate job_desc 7000)
          (truncate (input_pdf_text pdf).text 9000)
      ∧ p.length ≤ (buildPrompt "" "").length
          + (7000 + truncMarker.length) + (9000 + truncMarker.length) := by
  have hp : p = buildPrompt (truncate job_desc 7000)
      (truncate (input_pdf_text pdf).text 9000) := by
    by_cases hjd : job_desc = ""
    · rw [hjd] at h
      simp [submitTrace] at h
    · by_cases hws : stripIsEmpty (input_pdf_text pdf).text
      · rw [submitTrace_whitespace job_desc pdf svc hjd hws] at h
        rcases List.mem_append.mp h with h | h
        · cases pdf <;> simp [input_pdf_text] at h
        · simp at h
      · have hws' : stripIsEmpty (input_pdf_text pdf).text = false := by
          simpa using hws
        rw [submitTrace_analyzed job_desc pdf svc hjd hws'] at h
        rcases List.mem_append.mp h with h | h
        · cases pdf <;> simp [input_pdf_text] at h
        · rcases List.mem_append.mp h with h | h
          · rcases List.mem_append.mp h with h | h
            · simpa using h
            · exact absurd h (gemini_events_no_call svc _ p)
          · simp at h
  refine ⟨hp, ?_⟩
  rw [hp, buildPrompt_length]
  have hm : truncMarker.length = 33 := rfl
  have h1 := truncate_length_le job_desc 7000
  have h2 := truncate_length_le (input_pdf_text pdf).text 9000
  omega

set_option maxRecDepth 16384 in
theorem prompt_size_bounded_witness :
    (Event.externalCall (buildPrompt "a" "b")
        ∈ submitTrace "a"
            (some (PdfParse.ok [{ extract_text := some "b" }]))
            (fun _ => GeminiOutcome.failure "e"))
      ∧ (buildPrompt "a" "b"
            = buildPrompt (truncate "a" 7000)
                (truncate
                  (input_pdf_text
                    (PdfParse.ok [{ extract_text := some "b" }])).text 9000)
          ∧ (buildPrompt "a" "b").length ≤ (buildPrompt "" "").length
              + (7000 + truncMarker.length)
              + (9000 + truncMarker.length)) := by
  have hmem : Event.externalCall (buildPrompt "a" "b")
      ∈ submitTrace "a" (some (PdfParse.ok [{ extract_text := some "b" }]))
          (fun _ => GeminiOutcome.failure "e") := by decide
  exact ⟨hmem,
    prompt_size_bounded "a" (PdfParse.ok [{ extract_text := some "b" }])
      (fun _ => GeminiOutcome.failure "e") (buildPrompt "a" "b") hmem⟩

end CareerCraft
